import Mathlib

set_option maxHeartbeats 1000000

/-!
Shallow embedding of the ReAct agent core (agent.py): the action
call-expression parser (`ReActAgent.parse_action`,
`ReActAgent._parse_single_arg`), the response tag extraction and the run
loop (`ReActAgent.run`), together with the content transformation of the
`write_to_file` tool.  Machine-level details that are irrelevant to the
verified properties (logging output, the OpenAI transport, filesystem
side effects of the tools) are abstracted: the reasoning source, the
interactive confirmation input and the tool registry are parameters of
the run-loop model, and the observable behaviour (result, message
history, and a trace of model calls / parses / confirmations / tool
invocations) is returned explicitly.
-/

/-- ASCII fragment of the whitespace stripped by Python str.strip. -/
def pyIsSpace (c : Char) : Bool :=
  c == ' ' || c == '\t' || c == '\n' || c == '\r' ||
    c == Char.ofNat 11 || c == Char.ofNat 12

/-- Python str.strip on a character list. -/
def pyStripList (cs : List Char) : List Char :=
  ((cs.dropWhile pyIsSpace).reverse.dropWhile pyIsSpace).reverse

/-- Python str.strip. -/
def pyStrip (s : String) : String :=
  String.mk (pyStripList s.data)

/-- Python str.lower (ASCII fragment). -/
def pyLower (s : String) : String :=
  String.mk (s.data.map Char.toLower)

/-- Does the first list occur as the leading characters of the second. -/
def leadsWith : List Char → List Char → Bool
  | [], _ => true
  | _ :: _, [] => false
  | a :: as, b :: bs => a == b && leadsWith as bs

/-- Index of the first occurrence of pat as a contiguous run in l. -/
def firstIndexOf (pat : List Char) : List Char → Option Nat
  | [] => if leadsWith pat [] then some 0 else Option.none
  | c :: cs =>
    if leadsWith pat (c :: cs) then some 0
    else
      match firstIndexOf pat cs with
      | some i => some (i + 1)
      | Option.none => Option.none

/-- Python substring containment (the `in` operator on str). -/
def containsSub (pat s : String) : Bool :=
  (firstIndexOf pat.data s.data).isSome

/-- Index of the last occurrence of a character. -/
def lastIndexOf (c : Char) : List Char → Option Nat
  | [] => Option.none
  | x :: xs =>
    match lastIndexOf c xs with
    | some j => some (j + 1)
    | Option.none => if x == c then some 0 else Option.none

/-- Python str.replace (non-overlapping, left to right); the fuel is the
    length of the scanned list, which bounds the number of steps. -/
def pyReplaceAux (old new : List Char) : Nat → List Char → List Char
  | 0, l => l
  | fuel + 1, l =>
    if !old.isEmpty && leadsWith old l then
      new ++ pyReplaceAux old new fuel (l.drop old.length)
    else
      match l with
      | [] => []
      | x :: xs => x :: pyReplaceAux old new fuel xs

/-- Python s.replace(old, new) for a nonempty old. -/
def pyReplace (s old new : String) : String :=
  String.mk (pyReplaceAux old.data new.data s.data.length s.data)

/-- Values produced by the argument parser: the fragment of the Python
    values that `ast.literal_eval` can return which this development
    models (strings, integers, booleans and None).  Other literal forms
    (floats, containers, ...) are not modelled; see `literalEval`. -/
inductive Value where
  | str (s : String)
  | int (n : Int)
  | bool (b : Bool)
  | none
deriving DecidableEq, Repr

/-- Single-character escapes decoded inside Python string literals.  An
    unknown escape keeps the backslash and the character (as Python does,
    modulo a deprecation warning). -/
def decodeEscape (c : Char) : Option Char :=
  if c == 'n' then some '\n'
  else if c == 't' then some '\t'
  else if c == 'r' then some '\r'
  else if c == '\\' then some '\\'
  else if c == '\'' then some '\''
  else if c == '"' then some '"'
  else if c == 'a' then some (Char.ofNat 7)
  else if c == 'b' then some (Char.ofNat 8)
  else if c == 'f' then some (Char.ofNat 12)
  else if c == 'v' then some (Char.ofNat 11)
  else if c == '0' then some (Char.ofNat 0)
  else Option.none

/-- Scan the body of a Python string literal opened with quote q: returns
    the decoded content and the remainder after the closing quote, or
    fails (unterminated literal, or a raw line break inside it, which
    Python rejects in a single-quoted literal). -/
def scanStrLit (q : Char) : List Char → Option (List Char × List Char)
  | [] => Option.none
  | c :: cs =>
    if c == q then some ([], cs)
    else if c == '\n' || c == '\r' then Option.none
    else if c == '\\' then
      match cs with
      | [] => Option.none
      | e :: rest =>
        match scanStrLit q rest with
        | some (body, rem) =>
          match decodeEscape e with
          | some d => some (d :: body, rem)
          | Option.none => some ('\\' :: e :: body, rem)
        | Option.none => Option.none
    else
      match scanStrLit q cs with
      | some (body, rem) => some (c :: body, rem)
      | Option.none => Option.none

/-- Digit run to a natural number. -/
def digitsToNat (ds : List Char) : Nat :=
  ds.foldl (fun n c => n * 10 + (c.toNat - 48)) 0

/-- Python decimal integer literal with an optional sign: a nonempty digit
    run with no leading zero (unless the run is all zeros). -/
def decIntLit (cs : List Char) : Option Value :=
  let core := fun (neg : Bool) (ds : List Char) =>
    if !ds.isEmpty && ds.all Char.isDigit &&
        (ds.head? != some '0' || ds.all (· == '0')) then
      some (Value.int (if neg then -(digitsToNat ds : Int) else (digitsToNat ds : Int)))
    else Option.none
  match cs with
  | '-' :: rest => core true rest
  | '+' :: rest => core false rest
  | _ => core false cs

/-- Models the fragment of Python `ast.literal_eval` exercised by
    `ReActAgent._parse_single_arg` (agent.py line 218): a quoted string
    literal (with single-character escape decoding, whole input consumed),
    a signed decimal integer, or the keywords True / False / None.
    Floats, containers, adjacent string concatenation and other literal
    forms are not modelled: they are treated as invalid, so the
    raw-string fallback of `parseSingleArg` applies to them. -/
def literalEval (s : String) : Option Value :=
  if s = "True" then some (Value.bool true)
  else if s = "False" then some (Value.bool false)
  else if s = "None" then some Value.none
  else
    match s.data with
    | [] => Option.none
    | c :: rest =>
      if c == '"' || c == '\'' then
        match scanStrLit c rest with
        | some (body, []) => some (Value.str (String.mk body))
        | _ => Option.none
      else decIntLit s.data

/-- `ReActAgent._parse_single_arg` (agent.py lines 212-225): strip the
    argument, try literal evaluation, otherwise fall back to the raw text
    with one layer of matching quotes removed (without interpreting
    escapes). -/
def parseSingleArg (arg : String) : Value :=
  let cs := pyStripList arg.data
  match literalEval (String.mk cs) with
  | some v => v
  | Option.none =>
    if (cs.head? == some '"' && cs.getLast? == some '"') ||
        (cs.head? == some '\'' && cs.getLast? == some '\'') then
      Value.str (String.mk ((cs.drop 1).dropLast))
    else Value.str (String.mk cs)

/-- ASCII model of the regex character class backslash-w. -/
def isWordChar (c : Char) : Bool :=
  c.isAlphanum || c == '_'

/-- The start-anchored regex match of agent.py line 163,
    re.match on (word-run)(open-paren)(greedy body)(close-paren) with
    DOTALL: a nonempty run of word characters, an opening parenthesis,
    then a greedy group ended by the LAST closing parenthesis anywhere in
    the remainder.  re.match anchors only at the start, so trailing text
    after that last closing parenthesis does not make the match fail. -/
def matchCallRegex (s : String) : Option (String × String) :=
  let cs := s.data
  let name := cs.takeWhile isWordChar
  if name.isEmpty then Option.none
  else
    let rest := cs.drop name.length
    if rest.head? == some '(' then
      let body := rest.drop 1
      match lastIndexOf ')' body with
      | some j => some (String.mk name, String.mk (body.take j))
      | Option.none => Option.none
    else Option.none

/-- The character scan of `ReActAgent.parse_action` (agent.py lines
    171-208): split the parenthesised body at commas that are at
    parenthesis depth 0 and not inside a quoted string; a quote closes
    only when the previously consumed character is not a backslash.
    current holds the characters of the argument being accumulated, in
    reverse; prev is the previously consumed character. -/
def scanArgs : List Char → Option Char → Bool → Option Char → Int →
    List Char → List Value → List Value
  | [], _prev, _inStr, _sc, _depth, current, args =>
    if (pyStripList current.reverse).isEmpty then args.reverse
    else (parseSingleArg (String.mk current.reverse) :: args).reverse
  | c :: rest, prev, inStr, sc, depth, current, args =>
    if inStr then
      if some c == sc && prev != some '\\' then
        scanArgs rest (some c) false Option.none depth (c :: current) args
      else
        scanArgs rest (some c) true sc depth (c :: current) args
    else
      if c == '"' || c == '\'' then
        scanArgs rest (some c) true (some c) depth (c :: current) args
      else if c == '(' then
        scanArgs rest (some c) false Option.none (depth + 1) (c :: current) args
      else if c == ')' then
        scanArgs rest (some c) false Option.none (depth - 1) (c :: current) args
      else if c == ',' && depth == 0 then
        scanArgs rest (some c) false Option.none depth []
          (parseSingleArg (String.mk current.reverse) :: args)
      else
        scanArgs rest (some c) false Option.none depth (c :: current) args

/-- `ReActAgent.parse_action` (agent.py lines 162-210).  Except.error
    models the uncaught ValueError("Invalid function call syntax") raised
    when the regex does not match. -/
def parse_action (code_str : String) : Except String (String × List Value) :=
  match matchCallRegex code_str with
  | Option.none => Except.error "Invalid function call syntax"
  | some (funcName, body) =>
    let args_str := pyStripList body.data
    Except.ok (funcName, scanArgs args_str Option.none false Option.none 0 [] [])

/-- The content transformation of the `write_to_file` tool (agent.py line
    258): replace each literal backslash-n two-character sequence with a
    real line break before writing. -/
def writeContentTransform (content : String) : String :=
  pyReplace content "\\n" "\n"

/-- re.search for the pattern openT(.*?)closeT with DOTALL (agent.py
    lines 66, 73, 77): the leftmost match starts at the first occurrence
    of the opening tag that is followed, anywhere later, by the closing
    tag, and the lazy group ends at the first subsequent closing tag.
    If the first occurrence of the opening tag has no closing tag after
    it, no later occurrence has one either, so the search fails. -/
def searchTag (openT closeT s : String) : Option String :=
  match firstIndexOf openT.data s.data with
  | Option.none => Option.none
  | some i =>
    let rest := s.data.drop (i + openT.data.length)
    match firstIndexOf closeT.data rest with
    | Option.none => Option.none
    | some j => some (String.mk (rest.take j))

/-- Message roles of the conversation history. -/
inductive Role where
  | system
  | user
  | assistant
deriving DecidableEq, Repr

/-- One entry of the conversation history (a {role, content} dict). -/
structure Message where
  role : Role
  content : String
deriving DecidableEq, Repr

/-- The uncaught Python exceptions that can escape `ReActAgent.run`:
    AttributeError from calling .group(1) on a failed final-answer search
    (line 74), RuntimeError("Model did not output <action>") (line 79),
    ValueError("Invalid function call syntax") from parse_action
    (line 165), and TypeError from str.join applied to non-string
    arguments in the action log line (line 83). -/
inductive RunError where
  | attributeError
  | runtimeNoAction
  | actionSyntaxError
  | typeErrorLogJoin
deriving DecidableEq, Repr

/-- Observable events of one run, in order: the k-th reasoning-source
    call, handing a raw action string to parse_action, the interactive
    confirmation prompt, an invocation of a registered tool handler, and
    appending an observation to the history. -/
inductive Event where
  | modelCall (k : Nat)
  | actionParse (raw : String)
  | confirmAsked (tool : String)
  | toolInvoked (tool : String) (args : List Value)
  | observationAppended (obs : String)
deriving DecidableEq, Repr

/-- The run's environment: the rendered system prompt, the reasoning
    source (the content of the k-th model response), the interactive
    confirmation input (the answer to the c-th prompt), and the tool
    registry built by __init__ from the tools list; a handler returns an
    observation string or raises (Except.error carries str(e)). -/
structure Env where
  systemPrompt : String
  responses : Nat → String
  confirm : Nat → String
  tools : String → Option (List Value → Except String String)

/-- Result of one iteration of the while-loop body: either the run halts
    (returning normally or raising), or it continues with the next
    confirmation-prompt counter and the observation to append. -/
inductive TurnOut where
  | halt (r : Except RunError String) (events : List Event)
  | cont (c1 : Nat) (obs : String) (events : List Event)
deriving Repr

/-- The observable outcome of a run: the returned string or uncaught
    exception, the final conversation history, and the event trace. -/
structure RunOutcome where
  result : Except RunError String
  messages : List Message
  trace : List Event
deriving Repr

/-- The try/except around tool dispatch (agent.py lines 90-93): an
    unknown name raises KeyError (whose str is the quoted name) and a
    handler exception is caught; both become the error-observation
    string. -/
def dispatchObservation (tools : String → Option (List Value → Except String String))
    (name : String) (args : List Value) : String :=
  match tools name with
  | Option.none => "Tool execution error: '" ++ name ++ "'"
  | some h =>
    match h args with
    | Except.ok s => s
    | Except.error e => "Tool execution error: " ++ e

/-- The handler is actually entered only when the name is registered. -/
def invokeEvents (tools : String → Option (List Value → Except String String))
    (name : String) (args : List Value) : List Event :=
  if (tools name).isSome then [Event.toolInvoked name args] else []

/-- Is the value a Python str (required by the ', '.join of the action
    log line, agent.py line 83, which raises TypeError otherwise). -/
def isStrValue : Value → Bool
  | Value.str _ => true
  | _ => false

/-- One iteration of the while-loop body of `ReActAgent.run` after the
    step-limit check (agent.py lines 62-96), for the k-th model call and
    c earlier confirmation prompts: detect a final answer (the substring
    check of line 72 has priority over action extraction), otherwise
    extract and parse the action, log it (the join of line 83 raises on
    non-string arguments), ask confirmation only for
    run_terminal_command, and dispatch.  The thought extraction of lines
    66-69 only logs and is omitted. -/
def stepTurn (env : Env) (k c : Nat) : TurnOut :=
  let content := env.responses k
  if containsSub "<final_answer>" content then
    match searchTag "<final_answer>" "</final_answer>" content with
    | some ans => TurnOut.halt (Except.ok ans) [Event.modelCall k]
    | Option.none => TurnOut.halt (Except.error RunError.attributeError) [Event.modelCall k]
  else
    match searchTag "<action>" "</action>" content with
    | Option.none => TurnOut.halt (Except.error RunError.runtimeNoAction) [Event.modelCall k]
    | some action =>
      match parse_action action with
      | Except.error _ =>
        TurnOut.halt (Except.error RunError.actionSyntaxError)
          [Event.modelCall k, Event.actionParse action]
      | Except.ok (toolName, args) =>
        if !args.all isStrValue then
          TurnOut.halt (Except.error RunError.typeErrorLogJoin)
            [Event.modelCall k, Event.actionParse action]
        else if toolName == "run_terminal_command" then
          if pyLower (env.confirm c) ≠ "y" then
            TurnOut.halt (Except.ok "Operation cancelled by user")
              [Event.modelCall k, Event.actionParse action, Event.confirmAsked toolName]
          else
            TurnOut.cont (c + 1) (dispatchObservation env.tools toolName args)
              ([Event.modelCall k, Event.actionParse action, Event.confirmAsked toolName] ++
                invokeEvents env.tools toolName args ++
                [Event.observationAppended (dispatchObservation env.tools toolName args)])
        else
          TurnOut.cont c (dispatchObservation env.tools toolName args)
            ([Event.modelCall k, Event.actionParse action] ++
              invokeEvents env.tools toolName args ++
              [Event.observationAppended (dispatchObservation env.tools toolName args)])

/-- The fixed step-limit return value of agent.py line 60. -/
def stepLimitMessage (n : Nat) : String :=
  "Reached maximum step limit (" ++ toString n ++ "). Stopping to avoid infinite loop."

/-- The while-loop of `ReActAgent.run` (agent.py lines 55-96).  The
    Python step counter is incremented at the start of each iteration and
    compared with MAX_STEPS before the model is called; here the
    equivalent remaining fuel maxSteps - step_count drives the
    recursion, so fuel 0 is exactly the iteration whose check fires.
    Every iteration first appends the raw model response as an assistant
    message (inside call_model, line 159); a continuing iteration also
    appends the wrapped observation as a user message (lines 95-96). -/
def runLoop (env : Env) (maxSteps : Nat) :
    Nat → Nat → Nat → List Message → List Event → RunOutcome
  | 0, _k, _c, msgs, tr => ⟨Except.ok (stepLimitMessage maxSteps), msgs, tr⟩
  | fuel + 1, k, c, msgs, tr =>
    match stepTurn env k c with
    | TurnOut.halt r de => ⟨r, msgs ++ [⟨Role.assistant, env.responses k⟩], tr ++ de⟩
    | TurnOut.cont c1 obs de =>
      runLoop env maxSteps fuel (k + 1) c1
        (msgs ++ [⟨Role.assistant, env.responses k⟩,
          ⟨Role.user, "<observation>" ++ obs ++ "</observation>"⟩])
        (tr ++ de)

/-- agent.py line 56. -/
def MAX_STEPS : Nat := 50

/-- The initial history of agent.py lines 50-53: the rendered system
    prompt, then the task wrapped in question tags. -/
def initMessages (env : Env) (userInput : String) : List Message :=
  [⟨Role.system, env.systemPrompt⟩,
   ⟨Role.user, "<question>" ++ userInput ++ "</question>"⟩]

/-- `ReActAgent.run` (agent.py lines 49-96). -/
def run (env : Env) (userInput : String) : RunOutcome :=
  runLoop env MAX_STEPS MAX_STEPS 0 0 (initMessages env userInput) []

/-- Count of reasoning-source calls recorded in a trace. -/
def isModelCall : Event → Bool
  | Event.modelCall _ => true
  | _ => false

def countModelCalls (tr : List Event) : Nat :=
  (tr.filter isModelCall).length

/-- The events of one turn outcome. -/
def turnEvents : TurnOut → List Event
  | TurnOut.halt _ de => de
  | TurnOut.cont _ _ de => de

/-- The start-anchored call-expression shape accepted by the regex of
    parse_action, stated independently of the parser: a nonempty leading
    run of word characters, immediately followed by an opening
    parenthesis, with at least one closing parenthesis somewhere after
    it.  Text after the last closing parenthesis is irrelevant. -/
def callShapeOk (s : String) : Bool :=
  let cs := s.data
  let w := cs.takeWhile isWordChar
  !w.isEmpty && ((cs.drop w.length).head? == some '(') &&
    ((cs.drop w.length).drop 1).any (fun ch => ch == ')')

/-- A user-role observation message wrapped in observation tags. -/
def isObservationMsg (m : Message) : Prop :=
  m.role = Role.user ∧ ∃ s, m.content = "<observation>" ++ s ++ "</observation>"

/-- History tail made of completed turns: assistant response followed by
    an observation message, repeated. -/
inductive PairedTail : List Message → Prop
  | nil : PairedTail []
  | cons (c : String) (m : Message) (rest : List Message) :
      isObservationMsg m → PairedTail rest →
      PairedTail (⟨Role.assistant, c⟩ :: m :: rest)

/-- History tail alternating assistant responses and observation
    messages, possibly ending with a trailing assistant response. -/
inductive AltTail : List Message → Prop
  | nil : AltTail []
  | last (c : String) : AltTail [⟨Role.assistant, c⟩]
  | cons (c : String) (m : Message) (rest : List Message) :
      isObservationMsg m → AltTail rest →
      AltTail (⟨Role.assistant, c⟩ :: m :: rest)

/-- Reasoning source that answers with a final answer and an action tag
    in the same response. -/
def envC2 : Env :=
  { systemPrompt := "sys"
    responses := fun _ => "<final_answer>done</final_answer><action>foo()</action>"
    confirm := fun _ => "y"
    tools := fun _ => Option.none }

/-- Reasoning source whose action string does not match the grammar. -/
def envC4 : Env :=
  { systemPrompt := "sys"
    responses := fun _ => "<action>???</action>"
    confirm := fun _ => "y"
    tools := fun _ => Option.none }

/-- Reasoning source that requests an unregistered tool once and then
    finishes. -/
def envC6 : Env :=
  { systemPrompt := "sys"
    responses := fun k =>
      if k == 0 then "<action>foo()</action>" else "<final_answer>x</final_answer>"
    confirm := fun _ => "y"
    tools := fun _ => Option.none }

/-- Reasoning source that requests the gated terminal tool; the human
    denies the confirmation. -/
def envC7 : Env :=
  { systemPrompt := "sys"
    responses := fun _ => "<action>run_terminal_command(\"ls\")</action>"
    confirm := fun _ => "n"
    tools := fun name =>
      if name == "run_terminal_command" then some (fun _ => Except.ok "ran") else Option.none }

/-- Reasoning source that never emits a final answer and also never
    emits an action tag. -/
def envC8bad : Env :=
  { systemPrompt := "sys"
    responses := fun _ => "hello"
    confirm := fun _ => "y"
    tools := fun _ => Option.none }

/-- Reasoning source that always emits a well-formed action on an
    unregistered, ungated tool and never a final answer. -/
def envC8 : Env :=
  { systemPrompt := "sys"
    responses := fun _ => "<action>foo()</action>"
    confirm := fun _ => "y"
    tools := fun _ => Option.none }

/-- Reasoning source whose response opens a final-answer tag but never
    closes it. -/
def envC10 : Env :=
  { systemPrompt := "sys"
    responses := fun _ => "<final_answer>oops"
    confirm := fun _ => "y"
    tools := fun _ => Option.none }

theorem containsSub_of_searchTag (openT closeT s a : String)
    (h : searchTag openT closeT s = some a) : containsSub openT s = true := by
  unfold searchTag at h
  unfold containsSub
  cases hi : firstIndexOf openT.data s.data with
  | none => rw [hi] at h; simp at h
  | some i => simp

theorem firstIndexOf_drop_none (pat : List Char) :
    ∀ (l : List Char) (n : Nat), firstIndexOf pat l = Option.none →
      firstIndexOf pat (l.drop n) = Option.none := by
  intro l
  induction l with
  | nil => intro n h; simpa using h
  | cons c cs ih =>
    intro n h
    cases n with
    | zero => simpa using h
    | succ m =>
      have h' : firstIndexOf pat cs = Option.none := by
        by_cases hl : leadsWith pat (c :: cs) = true
        · simp [firstIndexOf, hl] at h
        · simp only [firstIndexOf, hl, if_false] at h
          cases hcs : firstIndexOf pat cs with
          | none => rfl
          | some i => rw [hcs] at h; simp at h
      simpa using ih m h'

theorem searchTag_none_of_no_close (openT closeT s : String)
    (h : containsSub closeT s = false) :
    searchTag openT closeT s = Option.none := by
  unfold searchTag
  cases hi : firstIndexOf openT.data s.data with
  | none => rfl
  | some i =>
    have hn : firstIndexOf closeT.data s.data = Option.none := by
      unfold containsSub at h
      cases hc : firstIndexOf closeT.data s.data with
      | none => rfl
      | some j => rw [hc] at h; simp at h
    simp [firstIndexOf_drop_none closeT.data s.data _ hn]

theorem stepTurn_final (env : Env) (k c : Nat) (ans : String)
    (h : searchTag "<final_answer>" "</final_answer>" (env.responses k) = some ans) :
    stepTurn env k c = TurnOut.halt (Except.ok ans) [Event.modelCall k] := by
  have hc := containsSub_of_searchTag _ _ _ _ h
  unfold stepTurn
  simp [hc, h]

theorem stepTurn_unclosed (env : Env) (k c : Nat)
    (ho : containsSub "<final_answer>" (env.responses k) = true)
    (hc : containsSub "</final_answer>" (env.responses k) = false) :
    stepTurn env k c =
      TurnOut.halt (Except.error RunError.attributeError) [Event.modelCall k] := by
  unfold stepTurn
  simp [ho, searchTag_none_of_no_close _ _ _ hc]

theorem stepTurn_parsefail (env : Env) (k c : Nat) (a msg : String)
    (hno : containsSub "<final_answer>" (env.responses k) = false)
    (hact : searchTag "<action>" "</action>" (env.responses k) = some a)
    (hp : parse_action a = Except.error msg) :
    stepTurn env k c =
      TurnOut.halt (Except.error RunError.actionSyntaxError)
        [Event.modelCall k, Event.actionParse a] := by
  unfold stepTurn
  simp [hno, hact, hp]

theorem stepTurn_deny (env : Env) (k c : Nat) (a : String) (args : List Value)
    (hno : containsSub "<final_answer>" (env.responses k) = false)
    (hact : searchTag "<action>" "</action>" (env.responses k) = some a)
    (hp : parse_action a = Except.ok ("run_terminal_command", args))
    (hstr : args.all isStrValue = true)
    (hd : pyLower (env.confirm c) ≠ "y") :
    stepTurn env k c =
      TurnOut.halt (Except.ok "Operation cancelled by user")
        [Event.modelCall k, Event.actionParse a,
          Event.confirmAsked "run_terminal_command"] := by
  unfold stepTurn
  simp [hno, hact, hp, hstr, hd]

theorem stepTurn_dispatch (env : Env) (k c : Nat) (a toolName : String)
    (args : List Value)
    (hno : containsSub "<final_answer>" (env.responses k) = false)
    (hact : searchTag "<action>" "</action>" (env.responses k) = some a)
    (hp : parse_action a = Except.ok (toolName, args))
    (hstr : args.all isStrValue = true)
    (happ : pyLower (if toolName == "run_terminal_command" then env.confirm c else "y") = "y") :
    stepTurn env k c = TurnOut.cont
      (if toolName == "run_terminal_command" then c + 1 else c)
      (dispatchObservation env.tools toolName args)
      ([Event.modelCall k, Event.actionParse a] ++
        (if toolName == "run_terminal_command" then [Event.confirmAsked toolName] else []) ++
        invokeEvents env.tools toolName args ++
        [Event.observationAppended (dispatchObservation env.tools toolName args)]) := by
  by_cases hg : (toolName == "run_terminal_command") = true
  · rw [hg] at happ
    simp only [if_true] at happ
    unfold stepTurn
    simp [hno, hact, hp, hstr, hg, happ]
  · rw [Bool.not_eq_true] at hg
    unfold stepTurn
    simp [hno, hact, hp, hstr, hg]

theorem runLoop_halt (env : Env) (ms fuel k c : Nat) (msgs : List Message)
    (tr : List Event) (r : Except RunError String) (de : List Event)
    (h : stepTurn env k c = TurnOut.halt r de) :
    runLoop env ms (fuel + 1) k c msgs tr =
      ⟨r, msgs ++ [⟨Role.assistant, env.responses k⟩], tr ++ de⟩ := by
  simp [runLoop, h]

theorem runLoop_cont (env : Env) (ms fuel k c : Nat) (msgs : List Message)
    (tr : List Event) (c1 : Nat) (obs : String) (de : List Event)
    (h : stepTurn env k c = TurnOut.cont c1 obs de) :
    runLoop env ms (fuel + 1) k c msgs tr =
      runLoop env ms fuel (k + 1) c1
        (msgs ++ [⟨Role.assistant, env.responses k⟩,
          ⟨Role.user, "<observation>" ++ obs ++ "</observation>"⟩])
        (tr ++ de) := by
  simp [runLoop, h]

theorem runLoop_extends (env : Env) (ms : Nat) :
    ∀ (fuel k c : Nat) (msgs : List Message) (tr : List Event),
      ∃ dm de, (runLoop env ms fuel k c msgs tr).messages = msgs ++ dm ∧
        (runLoop env ms fuel k c msgs tr).trace = tr ++ de := by
  intro fuel
  induction fuel with
  | zero =>
    intro k c msgs tr
    exact ⟨[], [], by simp [runLoop], by simp [runLoop]⟩
  | succ n ih =>
    intro k c msgs tr
    cases hstep : stepTurn env k c with
    | halt r de =>
      rw [runLoop_halt env ms n k c msgs tr r de hstep]
      exact ⟨_, _, rfl, rfl⟩
    | cont c1 obs de =>
      rw [runLoop_cont env ms n k c msgs tr c1 obs de hstep]
      obtain ⟨dm', de', hm, ht⟩ := ih (k + 1) c1
        (msgs ++ [⟨Role.assistant, env.responses k⟩,
          ⟨Role.user, "<observation>" ++ obs ++ "</observation>"⟩])
        (tr ++ de)
      exact ⟨[⟨Role.assistant, env.responses k⟩,
          ⟨Role.user, "<observation>" ++ obs ++ "</observation>"⟩] ++ dm',
        de ++ de',
        by rw [hm, List.append_assoc],
        by rw [ht, List.append_assoc]⟩

theorem stepTurn_final_none (env : Env) (k c : Nat)
    (ho : containsSub "<final_answer>" (env.responses k) = true)
    (h2 : searchTag "<final_answer>" "</final_answer>" (env.responses k) = Option.none) :
    stepTurn env k c =
      TurnOut.halt (Except.error RunError.attributeError) [Event.modelCall k] := by
  unfold stepTurn
  simp [ho, h2]

theorem stepTurn_noaction (env : Env) (k c : Nat)
    (hno : containsSub "<final_answer>" (env.responses k) = false)
    (hact : searchTag "<action>" "</action>" (env.responses k) = Option.none) :
    stepTurn env k c =
      TurnOut.halt (Except.error RunError.runtimeNoAction) [Event.modelCall k] := by
  unfold stepTurn
  simp [hno, hact]

theorem stepTurn_joinfail (env : Env) (k c : Nat) (a : String) (args : List Value)
    (toolName : String)
    (hno : containsSub "<final_answer>" (env.responses k) = false)
    (hact : searchTag "<action>" "</action>" (env.responses k) = some a)
    (hp : parse_action a = Except.ok (toolName, args))
    (hstr : args.all isStrValue = false) :
    stepTurn env k c =
      TurnOut.halt (Except.error RunError.typeErrorLogJoin)
        [Event.modelCall k, Event.actionParse a] := by
  unfold stepTurn
  simp [hno, hact, hp, hstr]

theorem pyLower_y : pyLower "y" = "y" := by decide

theorem modelCall_mem_turnEvents (env : Env) (k c : Nat) :
    Event.modelCall k ∈ turnEvents (stepTurn env k c) := by
  by_cases h1 : containsSub "<final_answer>" (env.responses k) = true
  · cases h2 : searchTag "<final_answer>" "</final_answer>" (env.responses k) with
    | none => rw [stepTurn_final_none env k c h1 h2]; simp [turnEvents]
    | some ans => rw [stepTurn_final env k c ans h2]; simp [turnEvents]
  · rw [Bool.not_eq_true] at h1
    cases h2 : searchTag "<action>" "</action>" (env.responses k) with
    | none => rw [stepTurn_noaction env k c h1 h2]; simp [turnEvents]
    | some action =>
      cases h3 : parse_action action with
      | error m => rw [stepTurn_parsefail env k c action m h1 h2 h3]; simp [turnEvents]
      | ok pr =>
        obtain ⟨toolName, args⟩ := pr
        by_cases h4 : args.all isStrValue = true
        · by_cases h5 : (toolName == "run_terminal_command") = true
          · have h5' : toolName = "run_terminal_command" := by simpa using h5
            subst h5'
            by_cases h6 : pyLower (env.confirm c) ≠ "y"
            · rw [stepTurn_deny env k c action args h1 h2 h3 h4 h6]
              simp [turnEvents]
            · have h6' : pyLower (env.confirm c) = "y" := not_not.mp h6
              have happ : pyLower (if ("run_terminal_command" : String) ==
                  "run_terminal_command" then env.confirm c else "y") = "y" := by
                simpa using h6'
              rw [stepTurn_dispatch env k c action "run_terminal_command" args
                h1 h2 h3 h4 happ]
              simp [turnEvents]
          · have happ : pyLower (if toolName == "run_terminal_command" then
                env.confirm c else "y") = "y" := by
              rw [Bool.not_eq_true] at h5
              rw [h5]
              exact pyLower_y
            rw [stepTurn_dispatch env k c action toolName args h1 h2 h3 h4 happ]
            simp [turnEvents]
        · rw [Bool.not_eq_true] at h4
          rw [stepTurn_joinfail env k c action args toolName h1 h2 h3 h4]
          simp [turnEvents]

theorem modelCall_mem_runLoop (env : Env) (ms : Nat) (fuel k c : Nat)
    (msgs : List Message) (tr : List Event) :
    Event.modelCall k ∈ (runLoop env ms (fuel + 1) k c msgs tr).trace := by
  have hmem := modelCall_mem_turnEvents env k c
  cases hstep : stepTurn env k c with
  | halt r de =>
    rw [runLoop_halt env ms fuel k c msgs tr r de hstep]
    rw [hstep] at hmem
    simp only [turnEvents] at hmem
    simp [hmem]
  | cont c1 obs de =>
    rw [runLoop_cont env ms fuel k c msgs tr c1 obs de hstep]
    rw [hstep] at hmem
    simp only [turnEvents] at hmem
    obtain ⟨dm', de', _, ht⟩ := runLoop_extends env ms fuel (k + 1) c1
      (msgs ++ [⟨Role.assistant, env.responses k⟩,
        ⟨Role.user, "<observation>" ++ obs ++ "</observation>"⟩]) (tr ++ de)
    rw [ht]
    simp [hmem]

theorem countModelCalls_append (tr tr' : List Event) :
    countModelCalls (tr ++ tr') = countModelCalls tr + countModelCalls tr' := by
  unfold countModelCalls
  rw [List.filter_append, List.length_append]

theorem countModelCalls_invokeEvents
    (tools : String → Option (List Value → Except String String))
    (name : String) (args : List Value) :
    countModelCalls (invokeEvents tools name args) = 0 := by
  unfold invokeEvents
  split <;> simp [countModelCalls, isModelCall]

theorem confirmAsked_turnEvents (env : Env) (k c : Nat) (n : String)
    (h : Event.confirmAsked n ∈ turnEvents (stepTurn env k c)) :
    n = "run_terminal_command" := by
  by_cases h1 : containsSub "<final_answer>" (env.responses k) = true
  · cases h2 : searchTag "<final_answer>" "</final_answer>" (env.responses k) with
    | none => rw [stepTurn_final_none env k c h1 h2] at h; simp [turnEvents] at h
    | some ans => rw [stepTurn_final env k c ans h2] at h; simp [turnEvents] at h
  · rw [Bool.not_eq_true] at h1
    cases h2 : searchTag "<action>" "</action>" (env.responses k) with
    | none => rw [stepTurn_noaction env k c h1 h2] at h; simp [turnEvents] at h
    | some action =>
      cases h3 : parse_action action with
      | error m =>
        rw [stepTurn_parsefail env k c action m h1 h2 h3] at h
        simp [turnEvents] at h
      | ok pr =>
        obtain ⟨toolName, args⟩ := pr
        by_cases h4 : args.all isStrValue = true
        · by_cases h5 : (toolName == "run_terminal_command") = true
          · have h5' : toolName = "run_terminal_command" := by simpa using h5
            subst h5'
            by_cases h6 : pyLower (env.confirm c) ≠ "y"
            · rw [stepTurn_deny env k c action args h1 h2 h3 h4 h6] at h
              simp [turnEvents] at h
              exact h
            · have h6' : pyLower (env.confirm c) = "y" := not_not.mp h6
              have happ : pyLower (if ("run_terminal_command" : String) ==
                  "run_terminal_command" then env.confirm c else "y") = "y" := by
                simpa using h6'
              rw [stepTurn_dispatch env k c action "run_terminal_command" args
                h1 h2 h3 h4 happ] at h
              unfold invokeEvents at h
              by_cases h7 : (env.tools "run_terminal_command").isSome = true <;>
                simp [h7, turnEvents] at h <;> exact h
          · have happ : pyLower (if toolName == "run_terminal_command" then
                env.confirm c else "y") = "y" := by
              rw [Bool.not_eq_true] at h5
              rw [h5]
              exact pyLower_y
            rw [stepTurn_dispatch env k c action toolName args h1 h2 h3 h4 happ] at h
            unfold invokeEvents at h
            rw [Bool.not_eq_true] at h5
            by_cases h7 : (env.tools toolName).isSome = true <;>
              simp [h5, h7, turnEvents] at h
        · rw [Bool.not_eq_true] at h4
          rw [stepTurn_joinfail env k c action args toolName h1 h2 h3 h4] at h
          simp [turnEvents] at h

theorem confirmAsked_runLoop (env : Env) (ms : Nat) :
    ∀ (fuel k c : Nat) (msgs : List Message) (tr : List Event) (n : String),
      (∀ m, Event.confirmAsked m ∈ tr → m = "run_terminal_command") →
      Event.confirmAsked n ∈ (runLoop env ms fuel k c msgs tr).trace →
      n = "run_terminal_command" := by
  intro fuel
  induction fuel with
  | zero =>
    intro k c msgs tr n htr h
    exact htr n (by simpa [runLoop] using h)
  | succ m ih =>
    intro k c msgs tr n htr h
    cases hstep : stepTurn env k c with
    | halt r de =>
      rw [runLoop_halt env ms m k c msgs tr r de hstep] at h
      rcases List.mem_append.mp h with h' | h'
      · exact htr n h'
      · exact confirmAsked_turnEvents env k c n
          (by rw [hstep]; simpa [turnEvents] using h')
    | cont c1 obs de =>
      rw [runLoop_cont env ms m k c msgs tr c1 obs de hstep] at h
      refine ih (k + 1) c1 _ _ n ?_ h
      intro m' hm'
      rcases List.mem_append.mp hm' with h' | h'
      · exact htr m' h'
      · exact confirmAsked_turnEvents env k c m'
          (by rw [hstep]; simpa [turnEvents] using h')

theorem pairedTail_altTail : ∀ {t : List Message}, PairedTail t → AltTail t := by
  intro t h
  induction h with
  | nil => exact AltTail.nil
  | cons c m rest hm _ ih => exact AltTail.cons c m rest hm ih

theorem pairedTail_snoc_assistant (s : String) :
    ∀ {t : List Message}, PairedTail t →
      AltTail (t ++ [⟨Role.assistant, s⟩]) := by
  intro t h
  induction h with
  | nil => simpa using AltTail.last s
  | cons c m rest hm _ ih => exact AltTail.cons c m _ hm ih

theorem pairedTail_snoc_pair (s o : String) :
    ∀ {t : List Message}, PairedTail t →
      PairedTail (t ++ [⟨Role.assistant, s⟩,
        ⟨Role.user, "<observation>" ++ o ++ "</observation>"⟩]) := by
  intro t h
  induction h with
  | nil => exact PairedTail.cons s _ [] ⟨rfl, o, rfl⟩ PairedTail.nil
  | cons c m rest hm _ ih => exact PairedTail.cons c m _ hm ih

theorem runLoop_shape (env : Env) (ms : Nat) :
    ∀ (fuel k c : Nat) (init t : List Message) (tr : List Event),
      PairedTail t →
      ∃ t', (runLoop env ms fuel k c (init ++ t) tr).messages = init ++ t' ∧
        AltTail t' := by
  intro fuel
  induction fuel with
  | zero =>
    intro k c init t tr hp
    exact ⟨t, by simp [runLoop], pairedTail_altTail hp⟩
  | succ n ih =>
    intro k c init t tr hp
    cases hstep : stepTurn env k c with
    | halt r de =>
      rw [runLoop_halt env ms n k c (init ++ t) tr r de hstep]
      exact ⟨t ++ [⟨Role.assistant, env.responses k⟩], by simp,
        pairedTail_snoc_assistant _ hp⟩
    | cont c1 obs de =>
      rw [runLoop_cont env ms n k c (init ++ t) tr c1 obs de hstep]
      have h2 := pairedTail_snoc_pair (env.responses k) obs hp
      have h3 := ih (k + 1) c1 init
        (t ++ [⟨Role.assistant, env.responses k⟩,
          ⟨Role.user, "<observation>" ++ obs ++ "</observation>"⟩]) (tr ++ de) h2
      simpa [List.append_assoc] using h3

theorem runLoop_stepLimit (env : Env) (N : Nat) :
    ∀ (fuel k c : Nat) (msgs : List Message) (tr : List Event),
      (∀ j, k ≤ j → j < k + fuel →
        containsSub "<final_answer>" (env.responses j) = false ∧
        ∃ a nm args, searchTag "<action>" "</action>" (env.responses j) = some a ∧
          parse_action a = Except.ok (nm, args) ∧ args.all isStrValue = true ∧
          (nm == "run_terminal_command") = false) →
      (runLoop env N fuel k c msgs tr).result = Except.ok (stepLimitMessage N) ∧
      countModelCalls (runLoop env N fuel k c msgs tr).trace =
        countModelCalls tr + fuel := by
  intro fuel
  induction fuel with
  | zero =>
    intro k c msgs tr _
    exact ⟨by simp [runLoop], by simp [runLoop]⟩
  | succ n ih =>
    intro k c msgs tr hwf
    obtain ⟨hno, a, nm, args, hact, hp, hstr, hg⟩ :=
      hwf k (Nat.le_refl k) (by omega)
    have happ : pyLower (if nm == "run_terminal_command" then
        env.confirm c else "y") = "y" := by
      simp [hg, pyLower_y]
    have hstep := stepTurn_dispatch env k c a nm args hno hact hp hstr happ
    simp only [hg, Bool.false_eq_true, if_false, List.append_nil] at hstep
    rw [runLoop_cont env N n k c msgs tr c
      (dispatchObservation env.tools nm args) _ hstep]
    have hwf' : ∀ j, k + 1 ≤ j → j < k + 1 + n →
        containsSub "<final_answer>" (env.responses j) = false ∧
        ∃ a nm args, searchTag "<action>" "</action>" (env.responses j) = some a ∧
          parse_action a = Except.ok (nm, args) ∧ args.all isStrValue = true ∧
          (nm == "run_terminal_command") = false := by
      intro j hj1 hj2
      exact hwf j (by omega) (by omega)
    obtain ⟨hres, hcount⟩ := ih (k + 1) c
      (msgs ++ [⟨Role.assistant, env.responses k⟩,
        ⟨Role.user, "<observation>" ++
          dispatchObservation env.tools nm args ++ "</observation>"⟩])
      (tr ++ ([Event.modelCall k, Event.actionParse a] ++
        invokeEvents env.tools nm args ++
        [Event.observationAppended (dispatchObservation env.tools nm args)]))
      hwf'
    refine ⟨hres, ?_⟩
    rw [hcount, countModelCalls_append, countModelCalls_append,
      countModelCalls_append, countModelCalls_invokeEvents]
    simp [countModelCalls, isModelCall]
    omega

theorem lastIndexOf_none_iff (c : Char) :
    ∀ l : List Char, lastIndexOf c l = Option.none ↔
      l.any (fun ch => ch == c) = false := by
  intro l
  induction l with
  | nil => simp [lastIndexOf]
  | cons x xs ih =>
    cases hx : lastIndexOf c xs with
    | some j =>
      have hxs : xs.any (fun ch => ch == c) = true := by
        by_contra hfalse
        rw [Bool.not_eq_true] at hfalse
        rw [ih.mpr hfalse] at hx
        exact Option.noConfusion hx
      simp [lastIndexOf, hx, hxs]
    | none =>
      have hxs := ih.mp hx
      by_cases hc : (x == c) = true
      · simp [lastIndexOf, hx, hc]
      · rw [Bool.not_eq_true] at hc
        simp [lastIndexOf, hx, hc, hxs]

theorem matchCallRegex_none_iff (s : String) :
    matchCallRegex s = Option.none ↔ callShapeOk s = false := by
  unfold matchCallRegex callShapeOk
  dsimp only
  by_cases hw : (s.data.takeWhile isWordChar).isEmpty = true
  · rw [hw]
    simp
  · rw [Bool.not_eq_true] at hw
    rw [hw]
    by_cases hh : ((s.data.drop (s.data.takeWhile isWordChar).length).head? ==
        some '(') = true
    · rw [hh]
      cases hl : lastIndexOf ')'
          ((s.data.drop (s.data.takeWhile isWordChar).length).drop 1) with
      | some j =>
        have ha : ((s.data.drop (s.data.takeWhile isWordChar).length).drop 1).any
            (fun ch => ch == ')') = true := by
          by_contra hfalse
          rw [Bool.not_eq_true] at hfalse
          rw [(lastIndexOf_none_iff ')' _).mpr hfalse] at hl
          exact Option.noConfusion hl
        rw [ha]
        simp
      | none =>
        have ha := (lastIndexOf_none_iff ')' _).mp hl
        rw [ha]
        simp
    · rw [Bool.not_eq_true] at hh
      rw [hh]
      simp

theorem parse_action_error_iff (s : String) :
    parse_action s = Except.error "Invalid function call syntax" ↔
      callShapeOk s = false := by
  unfold parse_action
  cases hm : matchCallRegex s with
  | none =>
    simp only [hm]
    constructor
    · intro _
      exact (matchCallRegex_none_iff s).mp hm
    · intro _
      trivial
  | some pr =>
    simp only [hm]
    constructor
    · intro h
      exact absurd h (by simp)
    · intro h
      rw [(matchCallRegex_none_iff s).mpr h] at hm
      exact Option.noConfusion hm

theorem leadsWith_append (xs ys : List Char) : leadsWith xs (xs ++ ys) = true := by
  induction xs with
  | nil => rfl
  | cons a as ih => simp [leadsWith, ih]

/-- C1 counterexample: on write_to_file("f.txt","a\nb") the parser does
    NOT preserve the two-character backslash-n sequence: ast.literal_eval
    decodes it, so the second argument comes back with a real line break
    (the string a, line break, b), which is different from the
    two-character-escape string the claim asserts. -/
theorem c1_counterexample :
    parse_action "write_to_file(\"f.txt\",\"a\\nb\")" =
      Except.ok ("write_to_file", [Value.str "f.txt", Value.str "a\nb"]) ∧
    Value.str "a\nb" ≠ Value.str "a\\nb" :=
  ⟨rfl, by decide⟩

/-- C1 (amended): for an action argument that is a valid quoted string
    literal containing the backslash-n escape, the parser itself decodes
    the escape into a real line break (Python literal semantics); the
    write_to_file replacement of literal backslash-n then has no further
    effect on the already-decoded content, while a raw two-character
    backslash-n that does reach the tool is decoded there. -/
theorem c1_newline_escape_decoding :
    parse_action "write_to_file(\"f.txt\",\"a\\nb\")" =
      Except.ok ("write_to_file", [Value.str "f.txt", Value.str "a\nb"]) ∧
    writeContentTransform "a\nb" = "a\nb" ∧
    writeContentTransform "a\\nb" = "a\nb" :=
  ⟨rfl, rfl, rfl⟩

/-- C2 (confirmed): whenever a model response contains a final-answer
    span, that iteration of the run loop returns the enclosed text as the
    terminal result and performs nothing else: the only message appended
    is the assistant response and the only event is the model call - no
    action is parsed, no confirmation is requested, no tool is
    dispatched - even if the same response also contains an action tag
    (the witness instantiates exactly that case). -/
theorem c2_final_answer_priority (env : Env) (ms fuel k c : Nat)
    (msgs : List Message) (tr : List Event) (ans : String)
    (hfa : searchTag "<final_answer>" "</final_answer>" (env.responses k) = some ans) :
    runLoop env ms (fuel + 1) k c msgs tr =
      ⟨Except.ok ans, msgs ++ [⟨Role.assistant, env.responses k⟩],
        tr ++ [Event.modelCall k]⟩ :=
  runLoop_halt env ms fuel k c msgs tr _ _ (stepTurn_final env k c ans hfa)

/-- C2 witness: a response carrying both a final answer and an action tag
    yields the final answer with a one-event trace. -/
theorem c2_witness :
    runLoop envC2 50 50 0 0 (initMessages envC2 "t") [] =
      ⟨Except.ok "done",
        initMessages envC2 "t" ++ [⟨Role.assistant, envC2.responses 0⟩],
        [Event.modelCall 0]⟩ :=
  c2_final_answer_priority envC2 50 49 0 0 (initMessages envC2 "t") [] "done"
    (by decide)

/-- C3 counterexample: foo("bar", 3, true) does NOT give a boolean third
    argument: lowercase true is not a Python literal, so the fallback
    returns the raw string "true". -/
theorem c3_counterexample :
    parse_action "foo(\"bar\", 3, true)" =
      Except.ok ("foo", [Value.str "bar", Value.int 3, Value.str "true"]) ∧
    Value.str "true" ≠ Value.bool true :=
  ⟨rfl, by decide⟩

/-- C3 (amended): foo("bar", 3, true) parses to toolName foo with the
    string "bar", the integer 3, and the raw fallback STRING "true";
    only the capitalised Python literals True/False/None produce
    boolean/null values, as foo("bar", 3, True) shows. -/
theorem c3_typed_arguments :
    parse_action "foo(\"bar\", 3, true)" =
      Except.ok ("foo", [Value.str "bar", Value.int 3, Value.str "true"]) ∧
    parse_action "foo(\"bar\", 3, True)" =
      Except.ok ("foo", [Value.str "bar", Value.int 3, Value.bool true]) :=
  ⟨rfl, rfl⟩

/-- C4 counterexample: a string with extra text after the closing
    parenthesis does NOT make parse_action fail: re.match anchors only at
    the start, so "foo(1) extra" parses successfully (the greedy body
    ends at the last closing parenthesis). -/
theorem c4_counterexample :
    parse_action "foo(1) extra" = Except.ok ("foo", [Value.int 1]) :=
  rfl

/-- C4 (amended): parse_action fails with ActionSyntaxError exactly for
    the inputs with no leading word-character run immediately followed by
    an opening parenthesis and a later closing parenthesis - trailing
    text after the last closing parenthesis is tolerated because the
    regex is anchored only at the start - and the failure is fatal: the
    run-loop iteration halts with the uncaught ValueError and performs no
    confirmation or dispatch. -/
theorem c4_syntax_failure_is_fatal :
    (∀ s : String, parse_action s = Except.error "Invalid function call syntax" ↔
      callShapeOk s = false) ∧
    (∀ (env : Env) (ms fuel k c : Nat) (msgs : List Message) (tr : List Event)
      (a msg : String),
      containsSub "<final_answer>" (env.responses k) = false →
      searchTag "<action>" "</action>" (env.responses k) = some a →
      parse_action a = Except.error msg →
      runLoop env ms (fuel + 1) k c msgs tr =
        ⟨Except.error RunError.actionSyntaxError,
          msgs ++ [⟨Role.assistant, env.responses k⟩],
          tr ++ [Event.modelCall k, Event.actionParse a]⟩) := by
  constructor
  · exact parse_action_error_iff
  · intro env ms fuel k c msgs tr a msg hno hact hp
    exact runLoop_halt env ms fuel k c msgs tr _ _
      (stepTurn_parsefail env k c a msg hno hact hp)

/-- C4 witness: "nope" has no opening parenthesis, so parse_action fails
    on it, and a run whose first action string is "???" aborts with the
    propagated parse failure. -/
theorem c4_witness :
    parse_action "nope" = Except.error "Invalid function call syntax" ∧
    runLoop envC4 50 50 0 0 (initMessages envC4 "t") [] =
      ⟨Except.error RunError.actionSyntaxError,
        initMessages envC4 "t" ++ [⟨Role.assistant, envC4.responses 0⟩],
        [Event.modelCall 0, Event.actionParse "???"]⟩ := by
  constructor
  · exact (c4_syntax_failure_is_fatal.1 "nope").mpr (by decide)
  · exact c4_syntax_failure_is_fatal.2 envC4 50 49 0 0 (initMessages envC4 "t") []
      "???" "Invalid function call syntax" (by decide) (by decide) rfl

/-- C5 (confirmed): the body is split only at commas that are at
    parenthesis depth 0 and outside a quoted string:
    foo(bar(1,2), "x,y") yields the raw fallback string "bar(1,2)" and
    the string "x,y", and foo("a,b", "c") yields "a,b" and "c". -/
theorem c5_top_level_comma_split :
    parse_action "foo(bar(1,2), \"x,y\")" =
      Except.ok ("foo", [Value.str "bar(1,2)", Value.str "x,y"]) ∧
    parse_action "foo(\"a,b\", \"c\")" =
      Except.ok ("foo", [Value.str "a,b", Value.str "c"]) :=
  ⟨rfl, rfl⟩

/-- C6 (confirmed): when a dispatched action names an unregistered tool
    or its handler raises, the observation is the descriptive
    error-observation string (it extends "Tool execution error: ") - no
    exception escapes the dispatch - the wrapped observation is appended
    to the history, and the run continues as the loop at the next state,
    performing the next reasoning-source call (modelCall (k+1)) when fuel
    remains. -/
theorem c6_dispatch_errors_recovered (env : Env) (ms fuel k c : Nat)
    (msgs : List Message) (tr : List Event) (a toolName : String)
    (args : List Value)
    (hno : containsSub "<final_answer>" (env.responses k) = false)
    (hact : searchTag "<action>" "</action>" (env.responses k) = some a)
    (hp : parse_action a = Except.ok (toolName, args))
    (hstr : args.all isStrValue = true)
    (happ : pyLower (if toolName == "run_terminal_command" then
      env.confirm c else "y") = "y")
    (herr : env.tools toolName = Option.none ∨
      ∃ h e, env.tools toolName = some h ∧ h args = Except.error e) :
    ∃ suffix,
      dispatchObservation env.tools toolName args =
        "Tool execution error: " ++ suffix ∧
      runLoop env ms (fuel + 2) k c msgs tr =
        runLoop env ms (fuel + 1) (k + 1)
          (if toolName == "run_terminal_command" then c + 1 else c)
          (msgs ++ [⟨Role.assistant, env.responses k⟩,
            ⟨Role.user, "<observation>" ++
              dispatchObservation env.tools toolName args ++ "</observation>"⟩])
          (tr ++ ([Event.modelCall k, Event.actionParse a] ++
            (if toolName == "run_terminal_command" then
              [Event.confirmAsked toolName] else []) ++
            invokeEvents env.tools toolName args ++
            [Event.observationAppended
              (dispatchObservation env.tools toolName args)])) ∧
      Event.modelCall (k + 1) ∈ (runLoop env ms (fuel + 2) k c msgs tr).trace := by
  have hstep := stepTurn_dispatch env k c a toolName args hno hact hp hstr happ
  have hcont := runLoop_cont env ms (fuel + 1) k c msgs tr _ _ _ hstep
  have hmem : Event.modelCall (k + 1) ∈
      (runLoop env ms (fuel + 2) k c msgs tr).trace := by
    rw [hcont]
    exact modelCall_mem_runLoop env ms fuel (k + 1) _ _ _
  rcases herr with hnone | ⟨h, e, hsome, he⟩
  · refine ⟨"'" ++ toolName ++ "'", ?_, hcont, hmem⟩
    unfold dispatchObservation
    rw [hnone]
    show ("Tool execution error: '" ++ toolName ++ "'" : String) =
      "Tool execution error: " ++ ("'" ++ toolName ++ "'")
    apply String.ext
    rw [String.data_append, String.data_append, String.data_append,
      String.data_append, String.data_append]
    rw [show ("Tool execution error: '" : String).data =
      ("Tool execution error: " : String).data ++ ("'" : String).data from by decide]
    simp [List.append_assoc]
  · refine ⟨e, ?_, hcont, hmem⟩
    unfold dispatchObservation
    rw [hsome]
    show (match h args with
      | Except.ok s => s
      | Except.error e => "Tool execution error: " ++ e) =
        "Tool execution error: " ++ e
    rw [he]

/-- C6 witness: the first response requests the unregistered tool foo;
    the observation is the KeyError text, it is appended, and the model
    is called again. -/
theorem c6_witness :
    ∃ suffix,
      dispatchObservation envC6.tools "foo" [] =
        "Tool execution error: " ++ suffix ∧
      runLoop envC6 50 50 0 0 (initMessages envC6 "t") [] =
        runLoop envC6 50 49 1
          (if ("foo" : String) == "run_terminal_command" then 0 + 1 else 0)
          (initMessages envC6 "t" ++ [⟨Role.assistant, envC6.responses 0⟩,
            ⟨Role.user, "<observation>" ++
              dispatchObservation envC6.tools "foo" [] ++ "</observation>"⟩])
          ([] ++ ([Event.modelCall 0, Event.actionParse "foo()"] ++
            (if ("foo" : String) == "run_terminal_command" then
              [Event.confirmAsked "foo"] else []) ++
            invokeEvents envC6.tools "foo" [] ++
            [Event.observationAppended
              (dispatchObservation envC6.tools "foo" [])])) ∧
      Event.modelCall 1 ∈ (runLoop envC6 50 50 0 0 (initMessages envC6 "t") []).trace :=
  c6_dispatch_errors_recovered envC6 50 48 0 0 (initMessages envC6 "t") []
    "foo()" "foo" [] (by decide) (by decide) rfl rfl (by decide) (Or.inl rfl)

/-- C7 (confirmed): the interactive confirmation prompt is issued only
    for run_terminal_command (every confirmAsked event in any run trace
    names it; all other tools are auto-approved), and a denied
    confirmation halts the run at once with the cancellation message:
    the exact outcome shows the handler is never invoked (no toolInvoked
    event) and no further reasoning-source call occurs. -/
theorem c7_confirmation_gate :
    (∀ (env : Env) (ms fuel k c : Nat) (msgs : List Message) (tr : List Event)
      (n : String),
      (∀ m, Event.confirmAsked m ∈ tr → m = "run_terminal_command") →
      Event.confirmAsked n ∈ (runLoop env ms fuel k c msgs tr).trace →
      n = "run_terminal_command") ∧
    (∀ (env : Env) (ms fuel k c : Nat) (msgs : List Message) (tr : List Event)
      (a : String) (args : List Value),
      containsSub "<final_answer>" (env.responses k) = false →
      searchTag "<action>" "</action>" (env.responses k) = some a →
      parse_action a = Except.ok ("run_terminal_command", args) →
      args.all isStrValue = true →
      pyLower (env.confirm c) ≠ "y" →
      runLoop env ms (fuel + 1) k c msgs tr =
        ⟨Except.ok "Operation cancelled by user",
          msgs ++ [⟨Role.assistant, env.responses k⟩],
          tr ++ [Event.modelCall k, Event.actionParse a,
            Event.confirmAsked "run_terminal_command"]⟩) := by
  constructor
  · exact fun env ms fuel k c msgs tr n htr h =>
      confirmAsked_runLoop env ms fuel k c msgs tr n htr h
  · intro env ms fuel k c msgs tr a args hno hact hp hstr hd
    exact runLoop_halt env ms fuel k c msgs tr _ _
      (stepTurn_deny env k c a args hno hact hp hstr hd)

/-- C7 witness: the gated tool with a denied prompt cancels the run; the
    only confirmation event in its trace names run_terminal_command. -/
theorem c7_witness :
    ("run_terminal_command" : String) = "run_terminal_command" ∧
    runLoop envC7 50 50 0 0 (initMessages envC7 "t") [] =
      ⟨Except.ok "Operation cancelled by user",
        initMessages envC7 "t" ++ [⟨Role.assistant, envC7.responses 0⟩],
        [Event.modelCall 0, Event.actionParse "run_terminal_command(\"ls\")",
          Event.confirmAsked "run_terminal_command"]⟩ := by
  constructor
  · exact c7_confirmation_gate.1 envC7 50 50 0 0 (initMessages envC7 "t") []
      "run_terminal_command" (by simp) (by decide)
  · exact c7_confirmation_gate.2 envC7 50 49 0 0 (initMessages envC7 "t") []
      "run_terminal_command(\"ls\")" [Value.str "ls"]
      (by decide) (by decide) rfl rfl (by decide)

/-- C8 counterexample: a reasoning source that never emits a final
    answer does NOT always reach the step-limit message: with maxSteps=2
    and every response equal to "hello" (no final answer, but also no
    action tag) the run raises the uncaught
    RuntimeError("Model did not output <action>") on the very first
    call, which is an exception, not the step-limit return. -/
theorem c8_counterexample :
    (runLoop envC8bad 2 2 0 0 (initMessages envC8bad "t") []).result =
      Except.error RunError.runtimeNoAction ∧
    (Except.error RunError.runtimeNoAction : Except RunError String) ≠
      Except.ok (stepLimitMessage 2) :=
  ⟨rfl, fun h => Except.noConfusion h⟩

/-- C8 (amended): for every reasoning source that never emits a final
    answer AND whose every response carries a well-formed action (it
    parses, its arguments are all strings, and its tool is not the
    confirmation-gated one), the loop with maxSteps=N terminates
    gracefully: the step counter is advanced and checked before the
    model is called, so the reasoner is called exactly N times and the
    (N+1)-th iteration returns the fixed step-limit message with no
    exception. -/
theorem c8_step_limit (N : Nat) (env : Env) (uin : String)
    (hwf : ∀ j, j < N →
      containsSub "<final_answer>" (env.responses j) = false ∧
      ∃ a nm args, searchTag "<action>" "</action>" (env.responses j) = some a ∧
        parse_action a = Except.ok (nm, args) ∧ args.all isStrValue = true ∧
        (nm == "run_terminal_command") = false) :
    (runLoop env N N 0 0 (initMessages env uin) []).result =
      Except.ok (stepLimitMessage N) ∧
    countModelCalls (runLoop env N N 0 0 (initMessages env uin) []).trace = N := by
  obtain ⟨h1, h2⟩ := runLoop_stepLimit env N N 0 0 (initMessages env uin) []
    (fun j _ hj => hwf j (by omega))
  refine ⟨h1, ?_⟩
  rw [h2]
  simp [countModelCalls]

/-- C8 witness: with maxSteps=2 and a source that always requests
    foo(), the run returns the step-limit message and the reasoner was
    called exactly twice. -/
theorem c8_witness :
    (runLoop envC8 2 2 0 0 (initMessages envC8 "t") []).result =
      Except.ok (stepLimitMessage 2) ∧
    countModelCalls (runLoop envC8 2 2 0 0 (initMessages envC8 "t") []).trace = 2 :=
  c8_step_limit 2 envC8 "t"
    (fun _ _ => ⟨rfl, "foo()", "foo", [], rfl, rfl, rfl, rfl⟩)

/-- C9 (confirmed): the conversation history is append-only - from any
    loop state, the final history extends the current one, so nothing is
    ever deleted or reordered - and every complete run's history starts
    with the system message and the user task message, followed by a
    tail that alternates assistant-produced responses and user-role
    observation messages wrapped in observation tags (possibly ending
    with a trailing assistant response). -/
theorem c9_history_invariant :
    (∀ (env : Env) (ms fuel k c : Nat) (msgs : List Message) (tr : List Event),
      ∃ dm de, (runLoop env ms fuel k c msgs tr).messages = msgs ++ dm ∧
        (runLoop env ms fuel k c msgs tr).trace = tr ++ de) ∧
    (∀ (env : Env) (uin : String),
      ∃ t, (run env uin).messages =
        ⟨Role.system, env.systemPrompt⟩ ::
          ⟨Role.user, "<question>" ++ uin ++ "</question>"⟩ :: t ∧
        AltTail t) := by
  constructor
  · exact runLoop_extends
  · intro env uin
    obtain ⟨t', hm, ha⟩ := runLoop_shape env MAX_STEPS MAX_STEPS 0 0
      (initMessages env uin) [] [] PairedTail.nil
    refine ⟨t', ?_, ha⟩
    have hrun : run env uin =
        runLoop env MAX_STEPS MAX_STEPS 0 0 (initMessages env uin ++ []) [] := by
      simp [run]
    rw [hrun, hm]
    simp [initMessages]

/-- C10 (confirmed): a response that contains the final-answer opening
    marker but no closing tag makes the run raise the uncaught
    AttributeError of .group(1) on a failed search: the iteration halts
    with that exception, returns no enclosed text and no graceful
    result, and attempts no action extraction (the only event of the
    turn is the model call; no actionParse event occurs). -/
theorem c10_unclosed_final_marker (env : Env) (ms fuel k c : Nat)
    (msgs : List Message) (tr : List Event)
    (hopen : containsSub "<final_answer>" (env.responses k) = true)
    (hclose : containsSub "</final_answer>" (env.responses k) = false) :
    runLoop env ms (fuel + 1) k c msgs tr =
      ⟨Except.error RunError.attributeError,
        msgs ++ [⟨Role.assistant, env.responses k⟩],
        tr ++ [Event.modelCall k]⟩ :=
  runLoop_halt env ms fuel k c msgs tr _ _
    (stepTurn_unclosed env k c hopen hclose)

/-- C10 witness: a run whose first response opens a final-answer tag and
    never closes it fails with the AttributeError. -/
theorem c10_witness :
    runLoop envC10 50 50 0 0 (initMessages envC10 "t") [] =
      ⟨Except.error RunError.attributeError,
        initMessages envC10 "t" ++ [⟨Role.assistant, envC10.responses 0⟩],
        [Event.modelCall 0]⟩ :=
  c10_unclosed_final_marker envC10 50 49 0 0 (initMessages envC10 "t") []
    (by decide) (by decide)
